import Mathlib

/-!
Shallow embedding of `sshrs` (src/lib.rs), an SSH client orchestration layer
built on the `ssh2` crate, together with theorems settling the specification
claims about session lifecycle, channel operations, file transfer and the
agent identity resolver.

Modelling conventions:
* Rust `Result<T, failure::Error>` together with the possibility of a panic
  (from `unwrap()` / `assert!`) is modelled by `Outcome SshError T` with a
  distinguished `panic` constructor.  A Rust panic is a crash, not a value;
  the constructor records where control aborts.
* The external transport engine (TCP connect, SSH handshake, authentication,
  channel opens, stream reads) is nondeterministic from the core's point of
  view; each operation takes an environment record of booleans telling which
  external step succeeds, so theorems quantify over every behaviour of the
  collaborator.
* Network I/O is made observable as a trace (`List Event`) returned by each
  operation: an empty trace means no network I/O was performed.
* Rust `&mut self` methods are embedded as state passing (the operation
  returns the updated `SSH` record); `&self` methods return the record
  unchanged, which is exactly what the borrow discipline of the source
  guarantees.
* Bytes are `Nat`, file contents are `List Nat`, and `std::collections::HashMap`
  (whose `insert` overwrites an existing key) is embedded as an association
  list with the overwrite-preserving `hmInsert` and lookup `hmLookup`.
* `BufReader::fill_buf()` in `upload_file` performs a single fill of the
  internal buffer, whose default capacity in the Rust standard library is
  8192 bytes; this is `List.take BUFCAP`.
* Dropping an `ssh2::Channel` closes/frees the channel; a local channel is
  dropped on every exit path of the function that created it, so traces end
  with `channelClose` whenever a channel was opened (explicit in
  `get_shell`, via `Drop` in `run_command`).
-/

namespace Sshrs

/-- Outcome of a Rust call: `ok` / `err` for `Result`, `panic` for an
`unwrap()` on `None`/`Err` or a failed `assert!`. -/
inductive Outcome (ε : Type) (α : Type) where
  | ok : α → Outcome ε α
  | err : ε → Outcome ε α
  | panic : Outcome ε α
deriving DecidableEq, Repr

/-- Error taxonomy of the specification (section 7).  The baseline code only
ever surfaces errors produced by the collaborators; the dedicated kinds such
as `notAuthenticatedError` are included so that claims about them are
statable against the code. -/
inductive SshError where
  | socketError
  | handshakeError
  | authError
  | notAuthenticatedError
  | channelOpenError
  | execError
  | transferError
  | localFileError
  | transportError
  | agentUnavailableError
  | agentProtocolError
deriving DecidableEq, Repr

/-- Observable network events emitted by the operations. -/
inductive Event where
  | tcpConnect (host : String) (port : Nat)
  | handshake
  | userauthPassword (user : String)
  | userauthAgent (user : String)
  | channelOpen
  | exec (cmd : String)
  | readStream
  | channelClose
  | scpSendEv (dest : String) (mode : Int) (len : Nat)
  | scpRecvEv (path : String)
  | writeData (data : List Nat)
  | keepaliveSend
  | requestPty
  | shellRequest
deriving DecidableEq, Repr

/-- State of one `ssh2::Session` transport handle.  `authenticated` is the
flag queried by `Session::authenticated()`; the keepalive fields record the
configuration installed by `set_keepalive`. -/
structure Session where
  authenticated : Bool
  keepaliveReply : Bool
  keepaliveInterval : Nat
deriving DecidableEq, Repr

/-- The `SSH` struct of src/lib.rs: an optional transport plus the
connection identity. -/
structure SSH where
  session : Option Session
  host : String
  port : Nat
deriving DecidableEq, Repr

/-- `SSH::new`: pure construction, no I/O, no transport yet. -/
def SSH.new (host : String) (port : Nat) : SSH :=
  { session := none, host := host, port := port }

/-- `chmod 644` constant `SCPMODE` of src/lib.rs line 12. -/
def SCPMODE : Int := 0o644

/-- Default capacity of `std::io::BufReader`, the single buffer filled by
`fill_buf()` in `upload_file`. -/
def BUFCAP : Nat := 8192

/-- Behaviour of the external world during `create_socket` + authentication:
whether the TCP connect succeeds, whether the handshake succeeds, whether the
`userauth_*` call returns `Ok`, and what `Session::authenticated()` reports
afterwards. -/
structure NetEnv where
  tcpOk : Bool
  handshakeOk : Bool
  authOk : Bool
  authFlag : Bool
deriving DecidableEq, Repr

/-- Behaviour of the transport during a command channel operation. -/
structure ChanEnv where
  openOk : Bool
  execOk : Bool
  readOk : Bool
  stdout : String
deriving DecidableEq, Repr

/-- Behaviour of the transport during an SCP upload. -/
structure UpEnv where
  scpOk : Bool
  writeOk : Bool
deriving DecidableEq, Repr

/-- Behaviour of the transport during an SCP download read. -/
structure DownEnv where
  readOk : Bool
deriving DecidableEq, Repr

/-- Behaviour of the transport during `get_shell`. -/
structure ShellEnv where
  openOk : Bool
  ptyOk : Bool
  shellOk : Bool
  closeOk : Bool
deriving DecidableEq, Repr

/-- Behaviour of the local agent during `identities`: each field is one of
the `unwrap()`ed calls of the source, in order, plus the identity list the
agent reports as (comment, blob) pairs. -/
structure AgentEnv where
  newOk : Bool
  agentOk : Bool
  reachable : Bool
  listOk : Bool
  idsOk : Bool
  ids : List (String × List Nat)
deriving DecidableEq, Repr

/-- `ssh2::ScpFileStat` as surfaced by `get_file`: size, mode, mtime. -/
structure ScpFileStat where
  size : Nat
  mode : Int
  mtime : Nat
deriving DecidableEq, Repr

/-- Local filesystem: path to file contents, `none` when `File::open` fails. -/
abbrev LocalFS : Type := String → Option (List Nat)

/-- Remote filesystem reachable over SCP, as an association list. -/
abbrev RemoteFS : Type := List (String × List Nat)

/-- `HashMap::insert`: overwrite the binding of `k` in place if present,
append otherwise. -/
def hmInsert {α : Type} : List (String × α) → String → α → List (String × α)
  | [], k, v => [(k, v)]
  | kv :: rest, k, v =>
      if kv.1 = k then (k, v) :: rest else kv :: hmInsert rest k v

/-- `HashMap::get`: first (hence, under key uniqueness, only) binding of `k`. -/
def hmLookup {α : Type} : List (String × α) → String → Option α
  | [], _ => none
  | kv :: rest, k => if kv.1 = k then some kv.2 else hmLookup rest k

/-- Keys of an association list. -/
def hmKeys {α : Type} (m : List (String × α)) : List String :=
  m.map Prod.fst

/-- Blob of the LAST pair of `ids` whose comment is `k`, if any: the
reference notion of last-write-wins. -/
def lastEntry {α : Type} : List (String × α) → String → Option α
  | [], _ => none
  | kv :: rest, k =>
      match lastEntry rest k with
      | some v => some v
      | none => if kv.1 = k then some kv.2 else none

/-- `sess_ref` (src/lib.rs lines 32-34): `self.session.as_ref().unwrap()` —
panics when the transport is absent. -/
def SSH.sess_ref (s : SSH) : Outcome SshError Session :=
  match s.session with
  | none => Outcome.panic
  | some sess => Outcome.ok sess

/-- `create_socket` (src/lib.rs lines 37-45): TCP connect to host:port, wrap
in a fresh `ssh2::Session`, handshake.  Both fallible steps propagate with
`?`. -/
def SSH.create_socket (s : SSH) (env : NetEnv) :
    Outcome SshError Session × List Event :=
  if env.tcpOk then
    if env.handshakeOk then
      (Outcome.ok { authenticated := false, keepaliveReply := false,
                    keepaliveInterval := 0 },
       [Event.tcpConnect s.host s.port, Event.handshake])
    else
      (Outcome.err SshError.handshakeError,
       [Event.tcpConnect s.host s.port, Event.handshake])
  else
    (Outcome.err SshError.socketError, [Event.tcpConnect s.host s.port])

/-- `connect` (src/lib.rs lines 67-73): `create_socket`, then
`userauth_password(username, pass)?`, then `assert!(sess.authenticated())`
(a panic when the flag is false), and only then `self.session = Some(sess)`. -/
def SSH.connect (s : SSH) (env : NetEnv) (username pass : String) :
    Outcome SshError Unit × SSH × List Event :=
  match s.create_socket env with
  | (Outcome.ok sess, tr) =>
      if env.authOk then
        if env.authFlag then
          (Outcome.ok (),
           { s with session := some { sess with authenticated := env.authFlag } },
           tr ++ [Event.userauthPassword username])
        else
          (Outcome.panic, s, tr ++ [Event.userauthPassword username])
      else
        (Outcome.err SshError.authError, s,
         tr ++ [Event.userauthPassword username])
  | (Outcome.err e, tr) => (Outcome.err e, s, tr)
  | (Outcome.panic, tr) => (Outcome.panic, s, tr)

/-- `connect_agent` (src/lib.rs lines 77-83): same path as `connect` with
`userauth_agent(username)?` and the same `assert!`. -/
def SSH.connect_agent (s : SSH) (env : NetEnv) (username : String) :
    Outcome SshError Unit × SSH × List Event :=
  match s.create_socket env with
  | (Outcome.ok sess, tr) =>
      if env.authOk then
        if env.authFlag then
          (Outcome.ok (),
           { s with session := some { sess with authenticated := env.authFlag } },
           tr ++ [Event.userauthAgent username])
        else
          (Outcome.panic, s, tr ++ [Event.userauthAgent username])
      else
        (Outcome.err SshError.authError, s,
         tr ++ [Event.userauthAgent username])
  | (Outcome.err e, tr) => (Outcome.err e, s, tr)
  | (Outcome.panic, tr) => (Outcome.panic, s, tr)

/-- `authed` (src/lib.rs lines 86-88): `self.sess_ref().authenticated()` —
panics via `sess_ref` when the transport is absent, otherwise reports the
transport's flag. -/
def SSH.authed (s : SSH) : Outcome SshError Bool :=
  match s.session with
  | none => Outcome.panic
  | some sess => Outcome.ok sess.authenticated

/-- `keepalive` (src/lib.rs lines 93-97): `sess_ref` (panic when absent),
`set_keepalive(reply, interval)` (infallible configuration), then
`keepalive_send()?` which touches the network and may fail. -/
def SSH.keepalive (s : SSH) (sendOk : Bool) (reply : Bool) (interval : Nat) :
    Outcome SshError Unit × SSH × List Event :=
  match s.session with
  | none => (Outcome.panic, s, [])
  | some sess =>
      let sess2 := { sess with keepaliveReply := reply,
                               keepaliveInterval := interval }
      let s2 := { s with session := some sess2 }
      if sendOk then (Outcome.ok (), s2, [Event.keepaliveSend])
      else (Outcome.err SshError.transportError, s2, [Event.keepaliveSend])

/-- `run_command` (src/lib.rs lines 126-133): `sess_ref` (panic when the
transport is absent, before any I/O), `channel_session()?`, `exec(cmd)?`,
`read_to_string`; the local `Channel` is dropped on every exit path after a
successful open, which frees (closes) the channel — the trailing
`channelClose` event models that `Drop`. -/
def SSH.run_command (s : SSH) (env : ChanEnv) (cmd : String) :
    Outcome SshError String × SSH × List Event :=
  match s.session with
  | none => (Outcome.panic, s, [])
  | some _ =>
      if env.openOk then
        if env.execOk then
          if env.readOk then
            (Outcome.ok env.stdout, s,
             [Event.channelOpen, Event.exec cmd, Event.readStream,
              Event.channelClose])
          else
            (Outcome.err SshError.transferError, s,
             [Event.channelOpen, Event.exec cmd, Event.readStream,
              Event.channelClose])
        else
          (Outcome.err SshError.execError, s,
           [Event.channelOpen, Event.exec cmd, Event.channelClose])
      else
        (Outcome.err SshError.channelOpenError, s, [])

/-- `get_shell` (src/lib.rs lines 117-123): `sess_ref` (panic when absent),
`channel_session()?`, `request_pty("xterm")?`, `shell()?`, explicit
`close()?`; after a successful open the channel is closed on every exit path
(explicitly on success, by `Drop` on the failure paths). -/
def SSH.get_shell (s : SSH) (env : ShellEnv) :
    Outcome SshError Unit × SSH × List Event :=
  match s.session with
  | none => (Outcome.panic, s, [])
  | some _ =>
      if env.openOk then
        if env.ptyOk then
          if env.shellOk then
            if env.closeOk then
              (Outcome.ok (), s,
               [Event.channelOpen, Event.requestPty, Event.shellRequest,
                Event.channelClose])
            else
              (Outcome.err SshError.transferError, s,
               [Event.channelOpen, Event.requestPty, Event.shellRequest,
                Event.channelClose])
          else
            (Outcome.err SshError.transferError, s,
             [Event.channelOpen, Event.requestPty, Event.channelClose])
        else
          (Outcome.err SshError.transferError, s,
           [Event.channelOpen, Event.requestPty, Event.channelClose])
      else
        (Outcome.err SshError.channelOpenError, s, [])

/-- `upload_file` (src/lib.rs lines 136-149): `sess_ref` (panic when the
transport is absent, before even the local open), `File::open(fpath)?`,
`BufReader::new`, a SINGLE `fill_buf()?` — at most `BUFCAP` bytes of the
file — then `scp_send(dest, SCPMODE, data_len, None).unwrap()` (panic when
the SCP channel is refused) and `.write(data)?`. -/
def SSH.upload_file (s : SSH) (env : UpEnv) (lfs : LocalFS) (fs : RemoteFS)
    (fpath dest : String) :
    Outcome SshError Unit × SSH × RemoteFS × List Event :=
  match s.session with
  | none => (Outcome.panic, s, fs, [])
  | some _ =>
      match lfs fpath with
      | none => (Outcome.err SshError.localFileError, s, fs, [])
      | some content =>
          let data := content.take BUFCAP
          if env.scpOk then
            if env.writeOk then
              (Outcome.ok (), s, hmInsert fs dest data,
               [Event.scpSendEv dest SCPMODE data.length, Event.writeData data])
            else
              (Outcome.err SshError.transferError, s, fs,
               [Event.scpSendEv dest SCPMODE data.length])
          else
            (Outcome.panic, s, fs,
             [Event.scpSendEv dest SCPMODE data.length])

/-- `get_file` (src/lib.rs lines 152-158): `self.session.as_ref().unwrap()`
(panic when the transport is absent), `scp_recv(fpath)?` yielding the remote
stream and its `ScpFileStat`, then `read_to_end`. -/
def SSH.get_file (s : SSH) (env : DownEnv) (fs : RemoteFS) (fpath : String) :
    Outcome SshError (List Nat × ScpFileStat) × SSH × List Event :=
  match s.session with
  | none => (Outcome.panic, s, [])
  | some _ =>
      match hmLookup fs fpath with
      | none =>
          (Outcome.err SshError.channelOpenError, s, [Event.scpRecvEv fpath])
      | some content =>
          if env.readOk then
            (Outcome.ok (content,
              { size := content.length, mode := SCPMODE, mtime := 0 }), s,
             [Event.scpRecvEv fpath, Event.readStream])
          else
            (Outcome.err SshError.transferError, s,
             [Event.scpRecvEv fpath, Event.readStream])

/-- `identities` (src/lib.rs lines 48-64): `Session::new().unwrap()`,
`sess.agent().unwrap()`, `agent.connect().unwrap()` (panic when no agent is
reachable), `agent.list_identities().unwrap()` (panic on a malformed
response), then each `identity.unwrap()` and a `HashMap` insert keyed by
comment. -/
def SSH.identities (env : AgentEnv) :
    Outcome SshError (List (String × List Nat)) :=
  if env.newOk then
    if env.agentOk then
      if env.reachable then
        if env.listOk then
          if env.idsOk then
            Outcome.ok (env.ids.foldl (fun m kv => hmInsert m kv.1 kv.2) [])
          else Outcome.panic
        else Outcome.panic
      else Outcome.panic
    else Outcome.panic
  else Outcome.panic

/-- Concrete Session with an authenticated transport, for instantiating
theorems at explicit inputs. -/
def authSSH : SSH :=
  { session := some { authenticated := true, keepaliveReply := false,
                      keepaliveInterval := 0 },
    host := "localhost", port := 22 }

/-- Concrete local filesystem holding one file at "f" of 8193 zero bytes —
one byte more than the 8192-byte `BufReader` capacity. -/
def bigFS : LocalFS :=
  fun p => if p = "f" then some (List.replicate 8193 0) else none

/-- Concrete local filesystem holding one small file at "f". -/
def smallFS : LocalFS :=
  fun p => if p = "f" then some [1, 2, 3] else none

/-- Concrete agent environment: reachable agent reporting two identities
that share the comment "a" plus one with comment "b". -/
def dupAgentEnv : AgentEnv :=
  { newOk := true, agentOk := true, reachable := true, listOk := true,
    idsOk := true, ids := [("a", [1]), ("a", [2]), ("b", [3])] }

/-! ## Association-list (HashMap) lemmas -/

theorem hmLookup_insert_self {α : Type} (m : List (String × α)) (k : String)
    (v : α) : hmLookup (hmInsert m k v) k = some v := by
  induction m with
  | nil => simp [hmInsert, hmLookup]
  | cons kv rest ih =>
      by_cases h : kv.1 = k <;> simp [hmInsert, hmLookup, h, ih]

theorem hmLookup_insert_ne {α : Type} (m : List (String × α)) (k k2 : String)
    (v : α) (h : k2 ≠ k) : hmLookup (hmInsert m k v) k2 = hmLookup m k2 := by
  induction m with
  | nil => simp [hmInsert, hmLookup, Ne.symm h]
  | cons kv rest ih =>
      by_cases hk : kv.1 = k
      · simp [hmInsert, hmLookup, hk, h, Ne.symm h]
      · simp [hmInsert, hmLookup, hk, ih]

theorem mem_hmKeys_insert {α : Type} (m : List (String × α)) (k : String)
    (v : α) (x : String) :
    x ∈ hmKeys (hmInsert m k v) ↔ x ∈ hmKeys m ∨ x = k := by
  induction m with
  | nil => simp [hmInsert, hmKeys]
  | cons kv rest ih =>
      by_cases h : kv.1 = k
      · subst h; simp [hmInsert, hmKeys]; tauto
      · simp [hmInsert, hmKeys, h] at ih ⊢; tauto

theorem hmKeys_insert_nodup {α : Type} (m : List (String × α)) (k : String)
    (v : α) (h : (hmKeys m).Nodup) : (hmKeys (hmInsert m k v)).Nodup := by
  induction m with
  | nil => simp [hmInsert, hmKeys]
  | cons kv rest ih =>
      simp only [hmKeys, List.map_cons, List.nodup_cons] at h
      by_cases hk : kv.1 = k
      · subst hk
        simp only [hmInsert, if_true]
        simp only [hmKeys, List.map_cons, List.nodup_cons]
        exact h
      · simp only [hmInsert, if_neg hk, hmKeys, List.map_cons, List.nodup_cons]
        refine ⟨fun hx => ?_, ih h.2⟩
        rcases (mem_hmKeys_insert rest k v kv.1).1 hx with hm | he
        · exact h.1 hm
        · exact hk he

theorem hmLookup_foldl_insert {α : Type} (ids : List (String × α))
    (m : List (String × α)) (k : String) :
    hmLookup (ids.foldl (fun m2 kv => hmInsert m2 kv.1 kv.2) m) k =
      match lastEntry ids k with
      | some v => some v
      | none => hmLookup m k := by
  induction ids generalizing m with
  | nil => simp [lastEntry]
  | cons kv rest ih =>
      simp only [List.foldl_cons, lastEntry]
      rw [ih]
      cases hle : lastEntry rest k with
      | some v => simp
      | none =>
          by_cases hk : kv.1 = k
          · subst hk; simp [hmLookup_insert_self]
          · simp [hk, hmLookup_insert_ne m kv.1 k kv.2 (Ne.symm hk)]

theorem hmKeys_foldl_insert_nodup {α : Type} (ids : List (String × α))
    (m : List (String × α)) (h : (hmKeys m).Nodup) :
    (hmKeys (ids.foldl (fun m2 kv => hmInsert m2 kv.1 kv.2) m)).Nodup := by
  induction ids generalizing m with
  | nil => simpa using h
  | cons kv rest ih => exact ih _ (hmKeys_insert_nodup m kv.1 kv.2 h)

/-! ## Claim theorems -/

/-- C2 (counterexample): on a freshly constructed Session (transport absent),
`run_command` aborts with a panic (`sess_ref`'s `unwrap()` on `None`) — it
does NOT return the typed `NotAuthenticatedError` the claim states. -/
theorem run_command_unauthenticated_not_typed_error :
    ((SSH.new "localhost" 22).run_command
        { openOk := true, execOk := true, readOk := true, stdout := "" }
        "ls").1 = Outcome.panic ∧
    ((SSH.new "localhost" 22).run_command
        { openOk := true, execOk := true, readOk := true, stdout := "" }
        "ls").1 ≠ Outcome.err SshError.notAuthenticatedError := by
  constructor <;> decide

/-- C2 (amended): on every Session whose transport is absent, each channel
operation (`run_command`, `upload_file`, `get_file`, `keepalive`) fails fast
with a panic — not a typed error — leaving the state unchanged and
performing no network I/O (empty event trace). -/
theorem channel_ops_unauthenticated_panic (s : SSH) (h : s.session = none)
    (cenv : ChanEnv) (cmd : String) (uenv : UpEnv) (lfs : LocalFS)
    (fs : RemoteFS) (fpath dest : String) (denv : DownEnv)
    (sendOk reply : Bool) (interval : Nat) :
    s.run_command cenv cmd = (Outcome.panic, s, []) ∧
    s.upload_file uenv lfs fs fpath dest = (Outcome.panic, s, fs, []) ∧
    s.get_file denv fs fpath = (Outcome.panic, s, []) ∧
    s.keepalive sendOk reply interval = (Outcome.panic, s, []) := by
  refine ⟨?_, ?_, ?_, ?_⟩ <;>
    simp [SSH.run_command, SSH.upload_file, SSH.get_file, SSH.keepalive, h]

/-- Witness for the amended C2 at SSH::new("localhost", 22). -/
theorem channel_ops_unauthenticated_panic_witness :
    (SSH.new "localhost" 22).session = none ∧
    (SSH.new "localhost" 22).run_command
        { openOk := true, execOk := true, readOk := true, stdout := "" } "ls"
      = (Outcome.panic, SSH.new "localhost" 22, []) :=
  ⟨rfl,
   (channel_ops_unauthenticated_panic (SSH.new "localhost" 22) rfl
      { openOk := true, execOk := true, readOk := true, stdout := "" } "ls"
      { scpOk := true, writeOk := true } (fun _ => none) [] "f" "d"
      { readOk := true } true true 5).1⟩

/-- C3 (counterexample): `authed` on a fresh Session (transport absent)
panics — it returns no bool at all, contradicting "never fails or panics". -/
theorem authed_unauthenticated_panics :
    (SSH.new "localhost" 22).authed = Outcome.panic ∧
    (SSH.new "localhost" 22).authed ≠ Outcome.ok true ∧
    (SSH.new "localhost" 22).authed ≠ Outcome.ok false := by
  refine ⟨rfl, ?_, ?_⟩ <;> decide

/-- C3 (amended): when a transport is present, `authed` returns its
`authenticated` flag (and cannot fail); when the transport is absent,
`authed` panics via `sess_ref`'s `unwrap()`. -/
theorem authed_reports_transport_flag (s : SSH) :
    (∀ sess, s.session = some sess →
      s.authed = Outcome.ok sess.authenticated) ∧
    (s.session = none → s.authed = Outcome.panic) := by
  constructor
  · intro sess h; simp [SSH.authed, h]
  · intro h; simp [SSH.authed, h]

/-- Witness for the amended C3 on an authenticated and on a fresh Session. -/
theorem authed_reports_transport_flag_witness :
    authSSH.authed = Outcome.ok true ∧
    (SSH.new "localhost" 22).authed = Outcome.panic :=
  ⟨(authed_reports_transport_flag authSSH).1
      { authenticated := true, keepaliveReply := false, keepaliveInterval := 0 }
      rfl,
   (authed_reports_transport_flag (SSH.new "localhost" 22)).2 rfl⟩

/-- C4 (code bug): when socket, handshake and the `userauth` call all
succeed but the transport's `authenticated()` flag is false afterwards,
`connect` and `connect_agent` crash on `assert!(sess.authenticated())`
instead of returning `AuthError` — the source's own comment
("Convert this to `Error` type") says this should be a typed error. -/
theorem connect_assert_panics_when_flag_false :
    ((SSH.new "localhost" 22).connect
        { tcpOk := true, handshakeOk := true, authOk := true,
          authFlag := false } "user" "pw").1 = Outcome.panic ∧
    ((SSH.new "localhost" 22).connect_agent
        { tcpOk := true, handshakeOk := true, authOk := true,
          authFlag := false } "user").1 = Outcome.panic := by
  constructor <;> rfl

/-- C5: a `connect` or `connect_agent` call that fails (socket, handshake or
auth failure, i.e. returns `err`) leaves the Session exactly as it was — in
particular `session` stays `none` and the call can be retried. -/
theorem connect_failure_leaves_session_unchanged (s : SSH) (env : NetEnv)
    (username pass : String) (e : SshError) :
    ((s.connect env username pass).1 = Outcome.err e →
      (s.connect env username pass).2.1 = s) ∧
    ((s.connect_agent env username).1 = Outcome.err e →
      (s.connect_agent env username).2.1 = s) := by
  rcases env with ⟨tcp, hs, au, fl⟩
  cases tcp <;> cases hs <;> cases au <;> cases fl <;>
    simp [SSH.connect, SSH.connect_agent, SSH.create_socket]

/-- Witness for C5: a refused TCP connect yields SocketError and the fresh
Session is returned unchanged. -/
theorem connect_failure_leaves_session_unchanged_witness :
    ((SSH.new "localhost" 22).connect
        { tcpOk := false, handshakeOk := true, authOk := true,
          authFlag := true } "u" "p").1 = Outcome.err SshError.socketError ∧
    ((SSH.new "localhost" 22).connect
        { tcpOk := false, handshakeOk := true, authOk := true,
          authFlag := true } "u" "p").2.1 = SSH.new "localhost" 22 :=
  ⟨rfl,
   (connect_failure_leaves_session_unchanged (SSH.new "localhost" 22)
      { tcpOk := false, handshakeOk := true, authOk := true, authFlag := true }
      "u" "p" SshError.socketError).1 rfl⟩

/-- C6 (counterexample): with no reachable agent, `identities` panics on
`agent.connect().unwrap()` — it does NOT return the typed
`AgentUnavailableError` the claim states. -/
theorem identities_agent_unreachable_not_typed_error :
    SSH.identities { newOk := true, agentOk := true, reachable := false,
                     listOk := true, idsOk := true, ids := [] }
      = Outcome.panic ∧
    SSH.identities { newOk := true, agentOk := true, reachable := false,
                     listOk := true, idsOk := true, ids := [] }
      ≠ Outcome.err SshError.agentUnavailableError := by
  constructor <;> decide

/-- C6 (amended): whenever no local agent is reachable, `identities` panics
(unwrap on the failed `agent.connect()`), whatever the rest of the
environment does; it never surfaces a typed error. -/
theorem identities_unreachable_panics (env : AgentEnv)
    (h : env.reachable = false) : SSH.identities env = Outcome.panic := by
  rcases env with ⟨n, a, r, l, i, ids⟩
  cases h
  cases n <;> cases a <;> simp [SSH.identities]

/-- Witness for the amended C6. -/
theorem identities_unreachable_panics_witness :
    SSH.identities { newOk := true, agentOk := true, reachable := false,
                     listOk := true, idsOk := true, ids := [("k", [1])] }
      = Outcome.panic :=
  identities_unreachable_panics
    { newOk := true, agentOk := true, reachable := false,
      listOk := true, idsOk := true, ids := [("k", [1])] } rfl

/-- C1 (code bug): upload followed by download does NOT round-trip for files
larger than one `BufReader` buffer: a local file of 8193 zero bytes uploads
"successfully", but `fill_buf()` yields only the first 8192 bytes, so the
download returns 8192 bytes — not the original 8193. -/
theorem upload_download_truncates_large_file :
    (authSSH.upload_file { scpOk := true, writeOk := true } bigFS [] "f"
        "/tmp/x").1 = Outcome.ok () ∧
    (authSSH.get_file { readOk := true }
        (authSSH.upload_file { scpOk := true, writeOk := true } bigFS []
          "f" "/tmp/x").2.2.1 "/tmp/x").1
      = Outcome.ok (List.replicate 8192 0,
          { size := 8192, mode := SCPMODE, mtime := 0 }) ∧
    List.replicate (8192 : Nat) (0 : Nat) ≠ List.replicate 8193 0 := by
  have htake : (List.replicate 8193 (0 : Nat)).take BUFCAP
      = List.replicate 8192 0 := by
    rw [List.take_replicate]
    norm_num [BUFCAP]
  have hcontent : bigFS "f" = some (List.replicate 8193 (0 : Nat)) := rfl
  have hup : authSSH.upload_file { scpOk := true, writeOk := true } bigFS []
      "f" "/tmp/x"
      = (Outcome.ok (), authSSH, [("/tmp/x", List.replicate 8192 0)],
         [Event.scpSendEv "/tmp/x" SCPMODE 8192,
          Event.writeData (List.replicate 8192 0)]) := by
    simp only [SSH.upload_file, authSSH, hcontent, htake,
      List.length_replicate, hmInsert, eq_self_iff_true, if_true]
  refine ⟨?_, ?_, ?_⟩
  · rw [hup]
  · rw [hup]
    have hlook : hmLookup ([("/tmp/x", List.replicate 8192 (0 : Nat))])
        "/tmp/x" = some (List.replicate 8192 0) := rfl
    simp only [SSH.get_file, authSSH, hlook, List.length_replicate,
      eq_self_iff_true, if_true]
  · intro h
    have h2 := congrArg List.length h
    rw [List.length_replicate, List.length_replicate] at h2
    omega

/-- C7: whenever `identities` succeeds, the returned mapping has unique keys
(comments), and the blob bound to each comment is the blob of the LAST
identity the agent reported with that comment (last-write-wins through the
HashMap insert). -/
theorem identities_unique_keys_last_write_wins (env : AgentEnv)
    (m : List (String × List Nat)) (h : SSH.identities env = Outcome.ok m) :
    (hmKeys m).Nodup ∧ ∀ k, hmLookup m k = lastEntry env.ids k := by
  rcases env with ⟨n, a, r, l, i, ids⟩
  cases n <;> cases a <;> cases r <;> cases l <;> cases i <;>
    simp [SSH.identities] at h
  subst h
  constructor
  · exact hmKeys_foldl_insert_nodup ids [] (by simp [hmKeys])
  · intro k
    have h2 := hmLookup_foldl_insert ids [] k
    cases hle : lastEntry ids k with
    | none => rw [hle] at h2; simpa [hmLookup] using h2
    | some v => rw [hle] at h2; simpa using h2

/-- Witness for C7 on an agent reporting a duplicated comment "a": the
second blob [2] wins and the keys are unique. -/
theorem identities_unique_keys_last_write_wins_witness :
    SSH.identities dupAgentEnv = Outcome.ok [("a", [2]), ("b", [3])] ∧
    hmLookup [("a", [2]), ("b", [3])] "a" = lastEntry dupAgentEnv.ids "a" ∧
    lastEntry dupAgentEnv.ids "a" = some [2] :=
  ⟨by decide,
   (identities_unique_keys_last_write_wins dupAgentEnv
      [("a", [2]), ("b", [3])] (by decide)).2 "a",
   by decide⟩

/-- C8: every `run_command` execution that opened a channel has closed it by
the time the call returns: whenever the event trace contains `channelOpen`,
the trace ends with `channelClose` — on success, on a failed exec request
and on a failed stream read alike (the close is Rust's `Drop` of the local
channel, which runs on every exit path). -/
theorem run_command_closes_opened_channel (s : SSH) (env : ChanEnv)
    (cmd : String) (h : Event.channelOpen ∈ (s.run_command env cmd).2.2) :
    (s.run_command env cmd).2.2.getLast? = some Event.channelClose := by
  rcases env with ⟨o, e, r, out⟩
  rcases hs : s.session with _ | sess
  · simp [SSH.run_command, hs] at h
  · cases o <;> cases e <;> cases r <;>
      simp_all [SSH.run_command]

/-- Witness for C8 on a failed exec request: the channel was opened and the
trace still ends in `channelClose`. -/
theorem run_command_closes_opened_channel_witness :
    Event.channelOpen ∈ (authSSH.run_command
        { openOk := true, execOk := false, readOk := true, stdout := "" }
        "ls").2.2 ∧
    (authSSH.run_command
        { openOk := true, execOk := false, readOk := true, stdout := "" }
        "ls").2.2.getLast? = some Event.channelClose :=
  ⟨by decide,
   run_command_closes_opened_channel authSSH
      { openOk := true, execOk := false, readOk := true, stdout := "" }
      "ls" (by decide)⟩

/-- C9: `upload_file` declares the fixed permission mode
`SCPMODE = 0o644` on every scp-send it issues, for every input; every
successful upload issued exactly such a request for the destination path.
The mode is a constant of the source, not configurable. -/
theorem upload_file_fixed_mode_644 (s : SSH) (env : UpEnv) (lfs : LocalFS)
    (fs : RemoteFS) (fpath dest : String) :
    SCPMODE = 0o644 ∧
    (∀ d mo n, Event.scpSendEv d mo n ∈
        (s.upload_file env lfs fs fpath dest).2.2.2 → mo = SCPMODE) ∧
    ((s.upload_file env lfs fs fpath dest).1 = Outcome.ok () →
      ∃ n, Event.scpSendEv dest SCPMODE n ∈
        (s.upload_file env lfs fs fpath dest).2.2.2) := by
  rcases env with ⟨sc, w⟩
  refine ⟨rfl, ?_, ?_⟩
  · intro d mo n hm
    rcases hs : s.session with _ | sess <;>
      rcases hc : lfs fpath with _ | content <;>
        cases sc <;> cases w <;> simp_all [SSH.upload_file]
  · intro hok
    rcases hs : s.session with _ | sess <;>
      rcases hc : lfs fpath with _ | content <;>
        cases sc <;> cases w <;> simp_all [SSH.upload_file]

/-- Witness for C9 on a concrete successful upload of a 3-byte file. -/
theorem upload_file_fixed_mode_644_witness :
    (authSSH.upload_file { scpOk := true, writeOk := true } smallFS []
        "f" "/d").1 = Outcome.ok () ∧
    (∃ n, Event.scpSendEv "/d" SCPMODE n ∈
      (authSSH.upload_file { scpOk := true, writeOk := true } smallFS []
        "f" "/d").2.2.2) ∧
    SCPMODE = 0o644 :=
  ⟨by decide,
   (upload_file_fixed_mode_644 authSSH { scpOk := true, writeOk := true }
      smallFS [] "f" "/d").2.2 (by decide),
   (upload_file_fixed_mode_644 authSSH { scpOk := true, writeOk := true }
      smallFS [] "f" "/d").1⟩

/-- C10: no operation ever modifies the Session's `host` or `port` fields,
whether it succeeds, fails or panics: the state-mutating operations
(`connect`, `connect_agent`, `keepalive`) return a state with the same
host and port, and the borrowed-session operations (`run_command`,
`upload_file`, `get_file`, `get_shell`) return the state unchanged;
`identities` takes no Session at all. -/
theorem operations_preserve_host_port (s : SSH) (nenv : NetEnv)
    (username pass : String) (sendOk reply : Bool) (interval : Nat)
    (cenv : ChanEnv) (cmd : String) (uenv : UpEnv) (lfs : LocalFS)
    (fs : RemoteFS) (fpath dest : String) (denv : DownEnv)
    (senv : ShellEnv) :
    ((s.connect nenv username pass).2.1.host = s.host ∧
     (s.connect nenv username pass).2.1.port = s.port) ∧
    ((s.connect_agent nenv username).2.1.host = s.host ∧
     (s.connect_agent nenv username).2.1.port = s.port) ∧
    ((s.keepalive sendOk reply interval).2.1.host = s.host ∧
     (s.keepalive sendOk reply interval).2.1.port = s.port) ∧
    (s.run_command cenv cmd).2.1 = s ∧
    (s.upload_file uenv lfs fs fpath dest).2.1 = s ∧
    (s.get_file denv fs fpath).2.1 = s ∧
    (s.get_shell senv).2.1 = s := by
  refine ⟨?_, ?_, ?_, ?_, ?_, ?_, ?_⟩
  · rcases nenv with ⟨t, hsk, au, fl⟩
    cases t <;> cases hsk <;> cases au <;> cases fl <;>
      simp [SSH.connect, SSH.create_socket]
  · rcases nenv with ⟨t, hsk, au, fl⟩
    cases t <;> cases hsk <;> cases au <;> cases fl <;>
      simp [SSH.connect_agent, SSH.create_socket]
  · rcases hx : s.session with _ | sess <;> cases sendOk <;>
      simp [SSH.keepalive, hx]
  · rcases hx : s.session with _ | sess <;> rcases cenv with ⟨o, e, r, out⟩ <;>
      cases o <;> cases e <;> cases r <;> simp [SSH.run_command, hx]
  · rcases hx : s.session with _ | sess <;>
      rcases hc : lfs fpath with _ | content <;>
        rcases uenv with ⟨sc, w⟩ <;> cases sc <;> cases w <;>
          simp [SSH.upload_file, hx, hc]
  · rcases hx : s.session with _ | sess <;>
      rcases hl : hmLookup fs fpath with _ | content <;>
        rcases denv with ⟨rd⟩ <;> cases rd <;>
          simp [SSH.get_file, hx, hl]
  · rcases hx : s.session with _ | sess <;>
      rcases senv with ⟨o, pt, sh, cl⟩ <;>
        cases o <;> cases pt <;> cases sh <;> cases cl <;>
          simp [SSH.get_shell, hx]

end Sshrs
